import Mathlib

/-
  Verification of the Express request/response logging middleware
  (src/middleware.js) against its specification.

  The two source functions are embedded shallowly:

    const resDotSendInterceptor = (res, send) => (content) => {
        res.contentBody = content;
        res.send = send;
        res.send(content);
    };

    const requestLoggerMiddleware = ({ logger }) => (req, res, next) => {
        logger("RECV <<<", req.method, req.url, req.hostname);
        res.send = resDotSendInterceptor(res, res.send);
        res.on("finish", () => {
            logger("SEND >>>", res.contentBody);
        });
        next();
    };

  JS values are modelled by the inductive Val (structural, decidable
  equality standing for JS structural comparison); the replaceable
  res.send slot holds a SendRef, where reference identity of functions
  is modelled by equality of SendRef values; invocation of whatever
  operation a SendRef denotes is given by invokeRef, an explicit
  state-passing semantics that also emits the ordered list of primitive
  events performed, so that ordering claims can be stated.  Exceptions
  are modelled with Except: a thrown JS value aborts the remaining
  statements and propagates.
-/

namespace ExpressReqResLogging

/-- JS runtime values relevant to this system.  Val.undefined is the JS
undefined value (in particular the value read from an object property
that was never assigned). -/
inductive Val where
  | undefined
  | boolean (b : Bool)
  | num (n : Int)
  | str (s : String)
deriving Repr, DecidableEq

/-- A reference to a send operation that can sit in the response's send
slot.  SendRef.original id is an opaque external send function (the one
installed by the framework before this middleware runs), identified by
id; two refs are the very same function reference exactly when they are
equal as SendRef values.  SendRef.interceptor w is the patched function
returned by resDotSendInterceptor applied to a response and the ref w
it closed over. -/
inductive SendRef where
  | original (id : Nat)
  | interceptor (wrapped : SendRef)
deriving Repr, DecidableEq

/-- The mutable response state this system touches: the contentBody
property (none while never assigned; reading it then yields
Val.undefined) and the send slot. -/
structure Res where
  contentBody : Option Val
  send : SendRef
deriving Repr, DecidableEq

/-- The read-only request attributes the middleware consumes. -/
structure Request where
  method : Val
  url : Val
  hostname : Val
deriving Repr, DecidableEq

/-- Primitive observable events, in the order they are performed. -/
inductive Event where
  | logCalled (args : List Val)
  | sendReplaced (newRef oldRef : SendRef)
  | listenerRegistered
  | nextCalled
  | contentBodySet (c : Val)
  | sendRestored (s : SendRef)
  | origSendCalled (id : Nat) (c : Val)
deriving Repr, DecidableEq

/-- A logger capability: called with a list of values, it either returns
normally (none) or throws the given JS value (some e). -/
def LoggerFun : Type := List Val → Option Val

/-- The fixed receipt marker "RECV <<<" of middleware.js line 25. -/
def recvMarker : Val := Val.str "RECV <<<"

/-- The fixed send marker "SEND >>>" of middleware.js line 28. -/
def sendMarker : Val := Val.str "SEND >>>"

/-- Reading res.contentBody as the JS property read on line 28: the
stored value, or undefined when never assigned. -/
def contentBodyVal (r : Res) : Val := r.contentBody.getD Val.undefined

/-- resDotSendInterceptor(res, send) (middleware.js line 11) builds and
returns the patched send function.  The returned closure is represented
by the reference SendRef.interceptor send; its behaviour when invoked is
the interceptor branch of invokeRef. -/
def resDotSendInterceptor (_res : Res) (send : SendRef) : SendRef :=
  SendRef.interceptor send

/-- Invocation semantics of a send reference, parametrised by the
behaviour origSem of the external original send functions (given the
content, original id returns a value or throws).  Returns the response
state after the call, the list of primitive events performed in order,
and the call's outcome.

The interceptor branch is the body of middleware.js lines 12 to 14:
res.contentBody = content; then res.send = send; then res.send(content),
where the slot just assigned holds send, so the call goes to the wrapped
reference.  The block body has no return statement, so on normal
completion the patched function itself returns undefined, while a thrown
exception propagates unchanged. -/
def invokeRef (origSem : Nat → Val → Except Val Val) :
    SendRef → Res → Val → Res × List Event × Except Val Val
  | SendRef.original id, r, c =>
      (r, [Event.origSendCalled id c], origSem id c)
  | SendRef.interceptor w, r, c =>
      let r1 : Res := { r with contentBody := some c }
      let r2 : Res := { r1 with send := w }
      let out := invokeRef origSem w r2 c
      (out.1,
       Event.contentBodySet c :: Event.sendRestored w :: out.2.1,
       match out.2.2 with
       | Except.ok _ => Except.ok Val.undefined
       | Except.error e => Except.error e)

/-- A handler calling res.send(content): invoke whatever reference the
response's send slot currently holds. -/
def callSend (origSem : Nat → Val → Except Val Val) (r : Res) (c : Val) :
    Res × List Event × Except Val Val :=
  invokeRef origSem r.send r c

/-- The thrown value of the JS TypeError raised by calling an undefined
logger. -/
def loggerTypeError : Val := Val.str "TypeError: logger is not a function"

/-- The thrown value of the JS TypeError raised by destructuring the
parameter pattern from undefined. -/
def destructureTypeError : Val :=
  Val.str "TypeError: cannot destructure property logger of undefined"

/-- The receipt entry of middleware.js line 25: the values handed to the
logger. -/
def receiptEntry (req : Request) : List Val :=
  [recvMarker, req.method, req.url, req.hostname]

/-- Result of one per-exchange run of the middleware body: the response
afterwards, the entries the logger received (each the argument list of
one logger call), the ordered events, whether the finish listener got
registered, whether next() was invoked, and the exception that escaped
the body, if any. -/
structure MwResult where
  res : Res
  logged : List (List Val)
  events : List Event
  listenerRegistered : Bool
  nextCalled : Bool
  error : Option Val
deriving Repr

/-- The per-exchange middleware body (middleware.js lines 24 to 31),
given the logger destructured from the configuration (none when the
configuration object had no logger property, so the slot holds
undefined).  Statements run in source order; a throw aborts the rest:

  line 25  logger("RECV <<<", req.method, req.url, req.hostname)
           with an undefined logger this call itself throws a TypeError
           before the logger receives anything;
  line 26  res.send = resDotSendInterceptor(res, res.send);
  line 27  res.on("finish", listener);
  line 30  next(). -/
def mwBody : Option LoggerFun → Request → Res → MwResult
  | none, _, r =>
      { res := r, logged := [], events := [], listenerRegistered := false,
        nextCalled := false, error := some loggerTypeError }
  | some f, req, r =>
      let entry := receiptEntry req
      match f entry with
      | some e =>
          { res := r, logged := [entry], events := [Event.logCalled entry],
            listenerRegistered := false, nextCalled := false,
            error := some e }
      | none =>
          let newSend := resDotSendInterceptor r r.send
          let r1 : Res := { r with send := newSend }
          { res := r1, logged := [entry],
            events := [Event.logCalled entry,
                       Event.sendReplaced newSend r.send,
                       Event.listenerRegistered, Event.nextCalled],
            listenerRegistered := true, nextCalled := true, error := none }

/-- The finish listener (middleware.js lines 27 to 29): when the finish
event fires, call logger("SEND >>>", res.contentBody) on the response
state at that instant.  Returns the entry the logger receives and the
call's outcome (none when the logger returns normally). -/
def finishListener (f : LoggerFun) (r : Res) : List Val × Option Val :=
  let entry := [sendMarker, contentBodyVal r]
  (entry, f entry)

/-- A middleware configuration object; logger is its logger property
(none when the property is absent, i.e. reads as undefined). -/
structure Config where
  logger : Option LoggerFun

/-- requestLoggerMiddleware (middleware.js line 24) applied to its
configuration argument (none models passing undefined).  Destructuring
the parameter pattern from undefined throws a TypeError; applied to any
object, it merely reads the logger property, performs no validation,
and returns the per-exchange closure. -/
def requestLoggerMiddleware : Option Config → Except Val (Request → Res → MwResult)
  | none => Except.error destructureTypeError
  | some cfg => Except.ok (mwBody cfg.logger)

/-- Whether an Except value is a normal result. -/
def isOkB {α : Type} (x : Except Val α) : Bool :=
  match x with
  | Except.ok _ => true
  | Except.error _ => false

/-- Sample inputs for witnesses. -/
def sampleReq : Request :=
  { method := Val.str "GET", url := Val.str "/api/health",
    hostname := Val.str "localhost" }

/-- A fresh response as the framework hands it to the middleware:
no contentBody yet, the framework send (id 0) installed. -/
def sampleRes : Res := { contentBody := none, send := SendRef.original 0 }

/-- A logger that always returns normally. -/
def okLogger : LoggerFun := fun _ => none

/-- A logger that always throws the value "sink failure". -/
def throwingLogger : LoggerFun := fun _ => some (Val.str "sink failure")

/-- External send behaviour: every original send echoes its content. -/
def echoSend : Nat → Val → Except Val Val := fun _ c => Except.ok c

/-- External send behaviour: every original send throws "boom". -/
def boomSend : Nat → Val → Except Val Val :=
  fun _ _ => Except.error (Val.str "boom")

/-- C1: invoking the interceptor installed over the original send with a
content value c performs, in this order: store c as contentBody, reinstall
the original reference in the send slot, and only then invoke the
original with c.  The event list is exactly store, restore, invoke; the
final state has contentBody = some c and the original send reinstalled;
the outcome is undefined on normal completion, the thrown value on a
throw. -/
theorem interceptor_order (origSem : Nat → Val → Except Val Val)
    (id : Nat) (r : Res) (c : Val) :
    invokeRef origSem (SendRef.interceptor (SendRef.original id)) r c
      = ({ r with contentBody := some c, send := SendRef.original id },
         [Event.contentBodySet c, Event.sendRestored (SendRef.original id),
          Event.origSendCalled id c],
         match origSem id c with
         | Except.ok _ => Except.ok Val.undefined
         | Except.error e => Except.error e) := by
  simp [invokeRef]

/-- C2: on a response whose send slot held the framework original when
the middleware ran, invoking send once through the installed interceptor
leaves the send slot holding the very same reference it held before the
middleware replaced it. -/
theorem send_slot_round_trip (origSem : Nat → Val → Except Val Val)
    (f : LoggerFun) (req : Request) (r : Res) (id : Nat) (c : Val)
    (hsend : r.send = SendRef.original id)
    (hf : f (receiptEntry req) = none) :
    (callSend origSem (mwBody (some f) req r).res c).1.send = r.send := by
  simp [mwBody, hf, callSend, resDotSendInterceptor, hsend, invokeRef]

theorem send_slot_round_trip_witness :
    (callSend echoSend (mwBody (some okLogger) sampleReq sampleRes).res
        (Val.str "hi")).1.send = sampleRes.send :=
  send_slot_round_trip echoSend okLogger sampleReq sampleRes 0 (Val.str "hi")
    rfl rfl

/-- C3: when send is invoked twice after the middleware ran, with c1 then
c2, the second invocation goes straight to the already reinstalled
original (its events are a single original-send call, no capture),
contentBody still holds c1, the finish listener logs c1, and c2 appears
in no log entry of the exchange. -/
theorem double_send_first_capture (origSem : Nat → Val → Except Val Val)
    (f : LoggerFun) (req : Request) (r : Res) (id : Nat) (c1 c2 : Val)
    (hsend : r.send = SendRef.original id)
    (hf : f (receiptEntry req) = none)
    (hne : c2 ≠ c1) (hmark : c2 ≠ sendMarker)
    (hrecv : c2 ∉ receiptEntry req) :
    (callSend origSem (callSend origSem (mwBody (some f) req r).res c1).1 c2).2.1
        = [Event.origSendCalled id c2]
    ∧ (callSend origSem
        (callSend origSem (mwBody (some f) req r).res c1).1 c2).1.contentBody
        = some c1
    ∧ (finishListener f (callSend origSem
        (callSend origSem (mwBody (some f) req r).res c1).1 c2).1).1
        = [sendMarker, c1]
    ∧ ∀ entry ∈ (mwBody (some f) req r).logged
          ++ [(finishListener f (callSend origSem
                (callSend origSem (mwBody (some f) req r).res c1).1 c2).1).1],
        c2 ∉ entry := by
  refine ⟨?_, ?_, ?_, ?_⟩ <;>
    simp [mwBody, hf, callSend, resDotSendInterceptor, hsend, invokeRef,
      finishListener, contentBodyVal, hne, hmark]
  exact hrecv

theorem double_send_first_capture_witness :
    (callSend echoSend (callSend echoSend
        (mwBody (some okLogger) sampleReq sampleRes).res (Val.str "first")).1
        (Val.str "second")).2.1
        = [Event.origSendCalled 0 (Val.str "second")]
    ∧ (callSend echoSend (callSend echoSend
        (mwBody (some okLogger) sampleReq sampleRes).res (Val.str "first")).1
        (Val.str "second")).1.contentBody
        = some (Val.str "first")
    ∧ (finishListener okLogger (callSend echoSend (callSend echoSend
        (mwBody (some okLogger) sampleReq sampleRes).res (Val.str "first")).1
        (Val.str "second")).1).1
        = [sendMarker, Val.str "first"]
    ∧ ∀ entry ∈ (mwBody (some okLogger) sampleReq sampleRes).logged
          ++ [(finishListener okLogger (callSend echoSend (callSend echoSend
                (mwBody (some okLogger) sampleReq sampleRes).res
                (Val.str "first")).1 (Val.str "second")).1).1],
        Val.str "second" ∉ entry :=
  double_send_first_capture echoSend okLogger sampleReq sampleRes 0
    (Val.str "first") (Val.str "second") rfl rfl (by decide) (by decide)
    (by decide)

/-- C4: when send is invoked exactly once with c before the finish event
fires, the entry the finish listener hands to the logger is the send
marker together with a value structurally equal to c. -/
theorem send_log_carries_content (origSem : Nat → Val → Except Val Val)
    (f : LoggerFun) (req : Request) (r : Res) (id : Nat) (c : Val)
    (hsend : r.send = SendRef.original id)
    (hf : f (receiptEntry req) = none) :
    (finishListener f
        (callSend origSem (mwBody (some f) req r).res c).1).1
      = [sendMarker, c] := by
  simp [mwBody, hf, callSend, resDotSendInterceptor, hsend, invokeRef,
    finishListener, contentBodyVal]

theorem send_log_carries_content_witness :
    (finishListener okLogger
        (callSend echoSend (mwBody (some okLogger) sampleReq sampleRes).res
          (Val.str "OK")).1).1
      = [sendMarker, Val.str "OK"] :=
  send_log_carries_content echoSend okLogger sampleReq sampleRes 0
    (Val.str "OK") rfl rfl

/-- C5: the middleware body hands the logger exactly one receipt entry,
made of the fixed marker and the request's method, url and hostname, and
this logger call is the first event of the body, strictly before the
send slot is replaced, before the finish listener is registered, and
before next() is invoked (and when the logger throws, those later
events never happen at all). -/
theorem receipt_logged_first (f : LoggerFun) (req : Request) (r : Res) :
    receiptEntry req = [recvMarker, req.method, req.url, req.hostname]
    ∧ (mwBody (some f) req r).logged = [receiptEntry req]
    ∧ (mwBody (some f) req r).events
        = Event.logCalled (receiptEntry req)
          :: (match f (receiptEntry req) with
              | none => [Event.sendReplaced (resDotSendInterceptor r r.send)
                           r.send,
                         Event.listenerRegistered, Event.nextCalled]
              | some _ => []) := by
  refine ⟨rfl, ?_, ?_⟩ <;> cases h : f (receiptEntry req) <;> simp [mwBody, h]

/-- C6 counterexample: with an original send that returns the value 42,
the interceptor invoked with some content does not return 42: its own
result is undefined, because the patched function body discards the
value of res.send(content). -/
theorem interceptor_return_value_cex :
    (invokeRef (fun _ _ => Except.ok (Val.num 42))
        (SendRef.interceptor (SendRef.original 0))
        sampleRes (Val.str "payload")).2.2
      ≠ Except.ok (Val.num 42) := by
  simp [invokeRef]

/-- C6 amended: the interceptor invokes the original exactly once with c
(after capturing and restoring), propagates a thrown value unchanged,
but on normal completion returns undefined, discarding whatever the
original returned. -/
theorem interceptor_returns_undefined (origSem : Nat → Val → Except Val Val)
    (id : Nat) (r : Res) (c : Val) :
    (invokeRef origSem (SendRef.interceptor (SendRef.original id)) r c).2.1
        = [Event.contentBodySet c, Event.sendRestored (SendRef.original id),
           Event.origSendCalled id c]
    ∧ (invokeRef origSem (SendRef.interceptor (SendRef.original id)) r c).2.2
        = (match origSem id c with
           | Except.ok _ => Except.ok Val.undefined
           | Except.error e => Except.error e) := by
  simp [invokeRef]

/-- C7: when the original send throws e, the interceptor neither catches
nor transforms it: the invocation's outcome is exactly the thrown e, and
no logger call occurs among the interceptor's events. -/
theorem delegation_failure_propagates (origSem : Nat → Val → Except Val Val)
    (id : Nat) (r : Res) (c : Val) (e : Val)
    (herr : origSem id c = Except.error e) :
    (invokeRef origSem (SendRef.interceptor (SendRef.original id)) r c).2.2
        = Except.error e
    ∧ ∀ args, Event.logCalled args
        ∉ (invokeRef origSem (SendRef.interceptor (SendRef.original id)) r c).2.1 := by
  simp [invokeRef, herr]

theorem delegation_failure_propagates_witness :
    (invokeRef boomSend (SendRef.interceptor (SendRef.original 0))
        sampleRes (Val.str "x")).2.2
        = Except.error (Val.str "boom")
    ∧ ∀ args, Event.logCalled args
        ∉ (invokeRef boomSend (SendRef.interceptor (SendRef.original 0))
            sampleRes (Val.str "x")).2.1 :=
  delegation_failure_propagates boomSend 0 sampleRes (Val.str "x")
    (Val.str "boom") rfl

/-- C8: when send is never invoked before the finish event fires, the
middleware body completed without error, and the finish listener still
hands the logger a send entry whose content value is the explicit
undefined value, the logger call returning normally. -/
theorem finish_without_send_logs_undefined (f : LoggerFun) (req : Request)
    (r : Res)
    (hcb : r.contentBody = none)
    (hf : f (receiptEntry req) = none)
    (hsend : f [sendMarker, Val.undefined] = none) :
    (mwBody (some f) req r).error = none
    ∧ (finishListener f (mwBody (some f) req r).res).1
        = [sendMarker, Val.undefined]
    ∧ (finishListener f (mwBody (some f) req r).res).2 = none := by
  simp [mwBody, hf, finishListener, contentBodyVal, hcb, hsend,
    resDotSendInterceptor]

theorem finish_without_send_logs_undefined_witness :
    (mwBody (some okLogger) sampleReq sampleRes).error = none
    ∧ (finishListener okLogger (mwBody (some okLogger) sampleReq sampleRes).res).1
        = [sendMarker, Val.undefined]
    ∧ (finishListener okLogger (mwBody (some okLogger) sampleReq sampleRes).res).2
        = none :=
  finish_without_send_logs_undefined okLogger sampleReq sampleRes rfl rfl rfl

/-- C9 counterexample: applying requestLoggerMiddleware to a
configuration object whose logger property is absent raises no error at
construction time: destructuring merely reads the property and the
per-exchange closure is returned normally. -/
theorem construction_without_logger_cex :
    isOkB (requestLoggerMiddleware (some { logger := none })) = true := rfl

/-- C9 amended: construction from any configuration object succeeds; when
the logger property is absent the failure is deferred to the first
per-exchange invocation, which throws the TypeError of calling an
undefined logger before logging anything, mutating the response, or
invoking next. -/
theorem construction_defers_logger_error (cfg : Config) (req : Request)
    (r : Res) :
    isOkB (requestLoggerMiddleware (some cfg)) = true
    ∧ (mwBody none req r).error = some loggerTypeError
    ∧ (mwBody none req r).nextCalled = false
    ∧ (mwBody none req r).res = r
    ∧ (mwBody none req r).logged = [] :=
  ⟨rfl, rfl, rfl, rfl, rfl⟩

/-- C10: when the logger throws while the receipt entry is being emitted,
the middleware body stops there: the thrown value escapes, the response
is left exactly as it was (send slot and contentBody untouched), no
finish listener is registered, next() is never invoked, and the only
event performed is that one logger call. -/
theorem receipt_logger_throw_stops (f : LoggerFun) (req : Request) (r : Res)
    (e : Val)
    (hf : f (receiptEntry req) = some e) :
    (mwBody (some f) req r).error = some e
    ∧ (mwBody (some f) req r).res = r
    ∧ (mwBody (some f) req r).listenerRegistered = false
    ∧ (mwBody (some f) req r).nextCalled = false
    ∧ (mwBody (some f) req r).events = [Event.logCalled (receiptEntry req)] := by
  simp [mwBody, hf]

theorem receipt_logger_throw_stops_witness :
    (mwBody (some throwingLogger) sampleReq sampleRes).error
        = some (Val.str "sink failure")
    ∧ (mwBody (some throwingLogger) sampleReq sampleRes).res = sampleRes
    ∧ (mwBody (some throwingLogger) sampleReq sampleRes).listenerRegistered
        = false
    ∧ (mwBody (some throwingLogger) sampleReq sampleRes).nextCalled = false
    ∧ (mwBody (some throwingLogger) sampleReq sampleRes).events
        = [Event.logCalled (receiptEntry sampleReq)] :=
  receipt_logger_throw_stops throwingLogger sampleReq sampleRes
    (Val.str "sink failure") rfl

end ExpressReqResLogging
